import Mathlib

/- Shallow embedding of src/pbcoretools/tasks/converters.py.

   External collaborators (the pbcore dataset library, pbcommand's run_cmd
   process runner, the filesystem and the temp-name generator) are modelled
   as explicit oracle parameters.  Every externally visible action of a
   conversion function (subprocess launch, dataset write, record write, log
   warning, file removal) is recorded in an event trace returned together
   with the function's Python return value; a raised Python exception is
   modelled as Except.error. -/

/- ### Path helpers (posixpath semantics, used by the source via os.path) -/

/-- os.path.basename: everything after the last slash. -/
def basename (p : String) : String :=
  String.mk ((p.data.reverse.takeWhile (fun c => c != '/')).reverse)

/-- os.path.dirname: the part of the path up to the last slash, with trailing
    slashes stripped unless the head consists only of slashes. -/
def dirname (p : String) : String :=
  let head := (p.data.reverse.dropWhile (fun c => c != '/')).reverse
  if head.isEmpty then ""
  else if head.all (fun c => c == '/') then String.mk head
  else String.mk ((head.reverse.dropWhile (fun c => c == '/')).reverse)

/-- os.path.isabs: absolute paths start with a slash. -/
def isAbs (p : String) : Bool :=
  match p.data with
  | '/' :: _ => true
  | _ => false

def endsWithSlash (p : String) : Bool :=
  match p.data.getLast? with
  | some c => c == '/'
  | none => false

/-- os.path.join for two components. -/
def pathJoin (a b : String) : String :=
  if isAbs b then b
  else if a.data.isEmpty || endsWithSlash a then a ++ b
  else a ++ "/" ++ b

/-- Python str.split with a single-character separator. -/
def splitOnChar (sep : Char) : List Char → List (List Char)
  | [] => [[]]
  | c :: cs =>
    match splitOnChar sep cs with
    | [] => [[c]]
    | y :: ys => if c = sep then [] :: y :: ys else (c :: y) :: ys

/-- Python sep.join on pre-split character chunks. -/
def intercalateChar (sep : Char) : List (List Char) → List Char
  | [] => []
  | [x] => x
  | x :: y :: ys => x ++ sep :: intercalateChar sep (y :: ys)

/-- ".".join(name.split(".")[:-2]): drop the last two dot-separated
    components (run_bax_to_bam's intermediate-name derivation). -/
def stripTwoExts (name : String) : String :=
  String.mk (intercalateChar '.' (((splitOnChar '.' name.data).dropLast).dropLast))

/- ### The re.sub(".subreads.bam", "_barcoded", s) substitution.
   The pattern string is used as a regular expression: the two dots match any
   character except newline, the match is unanchored, and re.sub rewrites
   every leftmost non-overlapping occurrence. -/

/-- Head match of the 13-character pattern ".subreads.bam"; on a match,
    returns the remainder of the list after the matched characters. -/
def patSplit : List Char → Option (List Char)
  | c0 :: 's' :: 'u' :: 'b' :: 'r' :: 'e' :: 'a' :: 'd' :: 's' :: c9 :: 'b' :: 'a' :: 'm' :: rest =>
    if c0 = '\n' || c9 = '\n' then none else some rest
  | _ => none

/-- Fuel-indexed scan performing the leftmost non-overlapping rewrite of the
    pattern to "_barcoded"; fuel at least the list length never runs out. -/
def reSubAux : Nat → List Char → List Char
  | _, [] => []
  | 0, l => l
  | fuel + 1, c :: cs =>
    match patSplit (c :: cs) with
    | some rest =>
      '_' :: 'b' :: 'a' :: 'r' :: 'c' :: 'o' :: 'd' :: 'e' :: 'd' :: reSubAux fuel rest
    | none => c :: reSubAux fuel cs

/-- re.sub(".subreads.bam", "_barcoded", s) from run_bam_to_bam. -/
def subreadsToBarcoded (s : String) : String :=
  String.mk (reSubAux s.data.length s.data)

/-- Whether the pattern ".subreads.bam" matches anywhere in the list
    (re.search would find a match). -/
def hasPat : List Char → Bool
  | [] => false
  | c :: cs => (patSplit (c :: cs)).isSome || hasPat cs

/-- re.sub("bam2", "", program_name) from run_bam_to_fastx: the pattern has
    no metacharacters, so it is a literal delete-all-occurrences. -/
def stripBam2 : List Char → List Char
  | 'b' :: 'a' :: 'm' :: '2' :: rest => stripBam2 rest
  | c :: cs => c :: stripBam2 cs
  | [] => []

/- ### Python exceptions raised by the source -/

inductive PyError where
  | valueError (msg : String)
  | notImplementedError (msg : String)
  | typeError (msg : String)
  | assertionError (msg : String)
  | indexError
deriving Repr, DecidableEq

/-- Python dict assignment d[k] = v on an association list. -/
def setKey (k v : String) : List (String × String) → List (String × String)
  | [] => [(k, v)]
  | (k0, v0) :: rest => if k0 = k then (k, v) :: rest else (k0, v0) :: setKey k v rest

/- ### run_bax_to_bam (multi-movie fan-out merger) -/

/-- The input HdfSubreadSet as the pbcore library presents it to
    run_bax_to_bam: one reported movieName per resource reader, the list of
    underlying bax files, the object-metadata dictionary and an opaque
    metadata block. -/
structure HdfSubreadSet where
  name : String
  resourceReaders : List String
  toExternalFiles : List String
  objMetadata : List (String × String)
  metadata : String
deriving Repr, DecidableEq

/-- The metadata state a freshly constructed SubreadSet(*files) gets from the
    pbcore library (an external collaborator), before run_bax_to_bam mutates
    it. -/
structure DSInit where
  objMetadata : List (String × String)
  metadata : String
deriving Repr, DecidableEq

/-- The merged output dataset as run_bax_to_bam writes it. -/
structure SubreadSetOut where
  resources : List String
  name : String
  objMetadata : List (String × String)
  metadata : String
deriving Repr, DecidableEq

inductive BaxEvent where
  | convert (inputPath outputPath : String)
  | writeDataset (path : String) (ds : SubreadSetOut)
deriving Repr, DecidableEq

/-- The intermediate per-movie dataset path: os.path.join(out_dir,
    ".".join(os.path.basename(bax_file).split(".")[:-2]) +
    ".hdfsubreadset.xml"). -/
def baxTmpName (out_dir bax_file : String) : String :=
  pathJoin out_dir (stripTwoExts (basename bax_file) ++ ".hdfsubreadset.xml")

/-- The fan-out loop of run_bax_to_bam: one _run_bax_to_bam invocation per
    bax file (event `convert`), collecting intermediate dataset paths in
    order, returning the first non-zero exit code unchanged. -/
def bax_fanout (runConv : String → String → Int) (out_dir : String) :
    List String → Except Int (List String) × List BaxEvent
  | [] => (Except.ok [], [])
  | bax :: rest =>
    let tmp := baxTmpName out_dir bax
    let rc := runConv bax tmp
    if rc = 0 then
      match bax_fanout runConv out_dir rest with
      | (Except.ok files, evs) =>
        (Except.ok (tmp :: files), BaxEvent.convert bax tmp :: evs)
      | (Except.error c, evs) => (Except.error c, BaxEvent.convert bax tmp :: evs)
    else (Except.error rc, [BaxEvent.convert bax tmp])

/-- The merged dataset built on the multi-movie success path:
    ds = SubreadSet(*ds_out_files); ds.name = ds_in.name;
    if 'Description' in ds_in.objMetadata:
        ds.objMetadata['Description'] = ds_in.objMetadata['Description'];
        ds.metadata.merge(ds_in.metadata).
    `mkDS` models the library constructor, `mergeMeta` the library merge. -/
def bax_multi_out (mkDS : List String → DSInit) (mergeMeta : String → String → String)
    (ds_in : HdfSubreadSet) (files : List String) : SubreadSetOut :=
  let init := mkDS files
  match List.lookup "Description" ds_in.objMetadata with
  | some d =>
    { resources := files
      name := ds_in.name
      objMetadata := setKey "Description" d init.objMetadata
      metadata := mergeMeta init.metadata ds_in.metadata }
  | none =>
    { resources := files
      name := ds_in.name
      objMetadata := init.objMetadata
      metadata := init.metadata }

/-- run_bax_to_bam: if more than one distinct reader-reported movie name is
    present, fan out per bax file and merge; otherwise delegate a single
    _run_bax_to_bam call with the original input and output paths.  `runConv`
    is the exit code of _run_bax_to_bam for a given input/output pair. -/
def run_bax_to_bam (runConv : String → String → Int)
    (mkDS : List String → DSInit) (mergeMeta : String → String → String)
    (ds_in : HdfSubreadSet) (input_file_name output_file_name : String) :
    Int × List BaxEvent :=
  let movies := ds_in.resourceReaders.dedup
  if 1 < movies.length then
    let out_dir := dirname output_file_name
    match bax_fanout runConv out_dir ds_in.toExternalFiles with
    | (Except.error rc, evs) => (rc, evs)
    | (Except.ok files, evs) =>
      (0, evs ++ [BaxEvent.writeDataset output_file_name
                    (bax_multi_out mkDS mergeMeta ds_in files)])
  else
    (runConv input_file_name output_file_name,
     [BaxEvent.convert input_file_name output_file_name])

/- ### run_bam_to_bam (barcoded-resource rebuilder) -/

/-- One entry of the input SubreadSet's externalResources list as pbcore
    presents it: the primary bam path and the optional scraps path. -/
structure ExtRes where
  bam : Option String
  scraps : Option String
deriving Repr, DecidableEq

/-- The input SubreadSet: its external resources and its (opaque) filter
    set, which the source carries over onto the output verbatim. -/
structure SubreadSetIn where
  externalResources : List ExtRes
  filters : String
deriving Repr, DecidableEq

/-- The BarcodeSet as the pbcore library presents it: one entry per resource
    reader, and the underlying reference files. -/
structure BarcodeSet where
  resourceReaders : List String
  toExternalFiles : List String
deriving Repr, DecidableEq

/-- An external-resource node of the rebuilt output dataset: resource path,
    meta type tag, index paths, nested child resources. -/
inductive ResNode where
  | mk (resourceId metaType : String) (indices : List String)
       (children : List ResNode)

inductive BBEvent where
  | cmd (args : List String)
  | writeDataset (path : String) (resources : List ResNode) (filters : String)

def isCmdBB : BBEvent → Bool
  | BBEvent.cmd _ => true
  | _ => false

def isWriteBB : BBEvent → Bool
  | BBEvent.writeDataset _ _ _ => true
  | _ => false

/-- The args list handed to run_cmd for one resource pair (the source joins
    it with spaces before invoking the process). -/
def bam2bamArgs (nproc : Nat) (outPathPfx barcode_fasta score_mode subreads_bam scraps_bam : String) :
    List String :=
  ["bam2bam", "-j", toString nproc, "-b", toString nproc,
   "-o", outPathPfx, "--barcodes", barcode_fasta, "--scoreMode", score_mode,
   subreads_bam, scraps_bam]

/-- new_prefix = op.join(op.dirname(output_file_name),
    re.sub(".subreads.bam", "_barcoded", op.basename(subreads_bam))). -/
def newPfxOf (output_file_name subreads_bam : String) : String :=
  pathJoin (dirname output_file_name) (subreadsToBarcoded (basename subreads_bam))

/-- Relative resource paths are resolved against the input dataset's
    directory. -/
def resolvePath (owning_file p : String) : String :=
  if isAbs p then p else pathJoin (dirname owning_file) p

/-- The resource-tree node built for one successfully split pair: the
    barcoded primary bam with its pbi index, containing the barcoded scraps
    bam with its pbi index and the barcode set used (no index). -/
def mkResNode (subreads_bam scraps_bam barcode_set_file : String) : ResNode :=
  ResNode.mk subreads_bam "PacBio.SubreadFile.SubreadBamFile" [subreads_bam ++ ".pbi"]
    [ResNode.mk scraps_bam "PacBio.SubreadFile.ScrapsBamFile" [scraps_bam ++ ".pbi"] [],
     ResNode.mk barcode_set_file "PacBio.DataSet.BarcodeSet" [] []]

/-- Outcome of the per-pair loop body of run_bam_to_bam: a raised exception,
    an early `return result.exit_code`, or the collected new resources. -/
inductive BBOut where
  | err (e : PyError)
  | earlyExit (code : Int)
  | done (resources : List ResNode)

/-- The per-resource-pair loop of run_bam_to_bam: for each external
    resource, check the primary and scraps paths, derive the new output
    path, invoke bam2bam (oracle `runCmd`), check the expected
    output file exists (oracle `isfile`), and accumulate the new
    resource nodes. -/
def bam2bamLoop (runCmd : List String → Int) (isfile : String → Bool)
    (subread_set_file barcode_set_file output_file_name barcode_fasta score_mode : String)
    (nproc : Nat) : List ExtRes → BBOut × List BBEvent
  | [] => (BBOut.done [], [])
  | er :: rest =>
    match er.bam with
    | none => (BBOut.err (PyError.assertionError "subreads_bam is not None"), [])
    | some subreads_bam0 =>
      match er.scraps with
      | none => (BBOut.err (PyError.typeError "The input SubreadSet must include scraps."), [])
      | some scraps_bam0 =>
        let newPfx := newPfxOf output_file_name subreads_bam0
        let args := bam2bamArgs nproc newPfx barcode_fasta score_mode
          (resolvePath subread_set_file subreads_bam0)
          (resolvePath subread_set_file scraps_bam0)
        let code := runCmd args
        if code ≠ 0 then (BBOut.earlyExit code, [BBEvent.cmd args])
        else if isfile (newPfx ++ ".subreads.bam") then
          match bam2bamLoop runCmd isfile subread_set_file barcode_set_file
            output_file_name barcode_fasta score_mode nproc rest with
          | (BBOut.done rs, evs) =>
            (BBOut.done (mkResNode (newPfx ++ ".subreads.bam") (newPfx ++ ".scraps.bam")
               barcode_set_file :: rs),
             BBEvent.cmd args :: evs)
          | (o, evs) => (o, BBEvent.cmd args :: evs)
        else
          (BBOut.err (PyError.assertionError ("Missing " ++ (newPfx ++ ".subreads.bam"))),
           [BBEvent.cmd args])

/-- run_bam_to_bam: validate the score mode, reject multi-file barcode sets,
    take the first barcode reference file, run the per-pair loop, and on
    full success write the rebuilt dataset (carrying the input's filters). -/
def run_bam_to_bam (runCmd : List String → Int) (isfile : String → Bool)
    (bc : BarcodeSet) (ds : SubreadSetIn)
    (subread_set_file barcode_set_file output_file_name : String)
    (nproc : Nat) (score_mode : String) : Except PyError Int × List BBEvent :=
  if ¬ score_mode ∈ (["asymmetric", "symmetric"] : List String) then
    (Except.error (PyError.valueError ("Unrecognized score mode \x27" ++ score_mode ++ "\x27")), [])
  else if 1 < bc.resourceReaders.length then
    (Except.error (PyError.notImplementedError "Multi-FASTA BarcodeSet input is not supported."), [])
  else
    match bc.toExternalFiles with
    | [] => (Except.error PyError.indexError, [])
    | barcode_fasta :: _ =>
      match bam2bamLoop runCmd isfile subread_set_file barcode_set_file
        output_file_name barcode_fasta score_mode nproc ds.externalResources with
      | (BBOut.err e, evs) => (Except.error e, evs)
      | (BBOut.earlyExit c, evs) => (Except.ok c, evs)
      | (BBOut.done rs, evs) =>
        (Except.ok 0, evs ++ [BBEvent.writeDataset output_file_name rs ds.filters])

/- ### run_bam_to_fastx (format extraction filter) -/

structure FastxRecord where
  header : String
  sequence : String
deriving Repr, DecidableEq

/-- The per-record admission test of run_bam_to_fastx's write loop:
    min_subread_length < 1 or min_subread_length < len(rec.sequence). -/
def keepRecord (min_subread_length : Int) (rec : FastxRecord) : Bool :=
  decide (min_subread_length < 1) ||
  decide (min_subread_length < (rec.sequence.length : Int))

inductive FxEvent where
  | cmd (args : List String)
  | logInfo (msg : String)
  | logWarn (msg : String)
  | writeRecord (rec : FastxRecord)
  | removeFile (path : String)
deriving Repr, DecidableEq

def isRemoveFx : FxEvent → Bool
  | FxEvent.removeFile _ => true
  | _ => false

/-- The records re-emitted to the output file, read off the event trace. -/
def writtenRecords (evs : List FxEvent) : List FastxRecord :=
  evs.filterMap (fun e =>
    match e with
    | FxEvent.writeRecord r => some r
    | _ => none)

/-- tmp_out = "{p}.{b}.gz" with b = re.sub("bam2", "", program_name). -/
def tmpOutName (tmp_out_pfx program_name : String) : String :=
  tmp_out_pfx ++ "." ++ String.mk (stripBam2 program_name.data) ++ ".gz"

/-- The log line run_bam_to_fastx emits about its threshold: an info line
    for a positive minimum length, a non-fatal warning for a negative one,
    nothing for zero. -/
def fxLogEvents (min_subread_length : Int) : List FxEvent :=
  if 0 < min_subread_length then
    [FxEvent.logInfo ("Filtering subreads by minimum length = " ++
      toString min_subread_length)]
  else if min_subread_length < 0 then
    [FxEvent.logWarn ("min_subread_length = " ++ toString min_subread_length ++
      ", ignoring")]
  else []

/-- run_bam_to_fastx: invoke the extraction binary (oracle `runCmd`),
    propagate a non-zero exit, otherwise check the compressed raw output
    exists (oracle `isfile`), parse it (oracle `readRecords`, modelling the
    fastx reader on the gzip-opened file), write the records passing the
    length filter, and remove the raw file.  `tmp_out_pfx` models the
    generated NamedTemporaryFile name. -/
def run_bam_to_fastx (runCmd : List String → Int) (isfile : String → Bool)
    (readRecords : String → List FastxRecord) (tmp_out_pfx : String)
    (program_name input_file_name output_file_name : String)
    (min_subread_length : Int) : Except PyError Int × List FxEvent :=
  let args := [program_name, "-o", tmp_out_pfx, input_file_name]
  let code := runCmd args
  if code ≠ 0 then (Except.ok code, [FxEvent.cmd args])
  else
    let tmp_out := tmpOutName tmp_out_pfx program_name
    if ¬ isfile tmp_out then (Except.error (PyError.assertionError tmp_out), [FxEvent.cmd args])
    else
      let logEvs : List FxEvent := fxLogEvents min_subread_length
      let written := (readRecords tmp_out).filter (keepRecord min_subread_length)
      (Except.ok 0,
       [FxEvent.cmd args, FxEvent.logInfo ("raw output in " ++ tmp_out)] ++ logEvs ++
         written.map FxEvent.writeRecord ++ [FxEvent.removeFile tmp_out])

def isWriteBax : BaxEvent → Bool
  | BaxEvent.writeDataset _ _ => true
  | _ => false

def isConvertBax : BaxEvent → Bool
  | BaxEvent.convert _ _ => true
  | _ => false

/- ### Helper lemmas -/

theorem lookup_setKey (k v : String) (l : List (String × String)) :
    List.lookup k (setKey k v l) = some v := by
  induction l with
  | nil => simp [setKey, List.lookup]
  | cons p rest ih =>
    obtain ⟨k0, v0⟩ := p
    by_cases h : k0 = k
    · simp [setKey, h, List.lookup]
    · simp only [setKey, if_neg h, List.lookup]
      have hne : (k == k0) = false := by
        simp [Ne.symm h]
      simp [hne, ih]

theorem bax_single_path (runConv : String → String → Int)
    (mkDS : List String → DSInit) (mergeMeta : String → String → String)
    (ds_in : HdfSubreadSet) (inp out : String)
    (h : ¬ 1 < ds_in.resourceReaders.dedup.length) :
    run_bax_to_bam runConv mkDS mergeMeta ds_in inp out =
      (runConv inp out, [BaxEvent.convert inp out]) := by
  simp [run_bax_to_bam, h]

theorem bax_fanout_fail (runConv : String → String → Int) (d : String)
    (pre : List String) (bad : String) (rest : List String) (rc : Int)
    (hpre : ∀ f ∈ pre, runConv f (baxTmpName d f) = 0)
    (hbad : runConv bad (baxTmpName d bad) = rc) (hrc : rc ≠ 0) :
    bax_fanout runConv d (pre ++ bad :: rest) =
      (Except.error rc,
       (pre ++ [bad]).map (fun f => BaxEvent.convert f (baxTmpName d f))) := by
  induction pre with
  | nil => simp [bax_fanout, hbad, hrc]
  | cons f pre ih =>
    have hf : runConv f (baxTmpName d f) = 0 := hpre f (by simp)
    have hpre2 : ∀ g ∈ pre, runConv g (baxTmpName d g) = 0 :=
      fun g hg => hpre g (by simp [hg])
    simp [bax_fanout, hf, ih hpre2]

/- ### Claims about run_bax_to_bam -/

/-- C1: on the multi-movie path with a successful fan-out, run_bax_to_bam
    writes a single merged dataset whose name equals the input dataset's
    name, and it copies the input's Description metadata onto the output and
    merges the input's metadata block into the output's metadata exactly
    when the input has a Description present (otherwise the constructed
    dataset's metadata is left untouched). -/
theorem claim_C1_merge_name_description
    (runConv : String → String → Int) (mkDS : List String → DSInit)
    (mergeMeta : String → String → String) (ds_in : HdfSubreadSet)
    (inp out : String) (files : List String) (evs : List BaxEvent)
    (hmulti : 1 < ds_in.resourceReaders.dedup.length)
    (hfan : bax_fanout runConv (dirname out) ds_in.toExternalFiles =
      (Except.ok files, evs)) :
    run_bax_to_bam runConv mkDS mergeMeta ds_in inp out =
      (0, evs ++ [BaxEvent.writeDataset out (bax_multi_out mkDS mergeMeta ds_in files)]) ∧
    (bax_multi_out mkDS mergeMeta ds_in files).name = ds_in.name ∧
    (∀ d : String, List.lookup "Description" ds_in.objMetadata = some d →
      List.lookup "Description" (bax_multi_out mkDS mergeMeta ds_in files).objMetadata = some d ∧
      (bax_multi_out mkDS mergeMeta ds_in files).metadata =
        mergeMeta (mkDS files).metadata ds_in.metadata) ∧
    (List.lookup "Description" ds_in.objMetadata = none →
      (bax_multi_out mkDS mergeMeta ds_in files).objMetadata = (mkDS files).objMetadata ∧
      (bax_multi_out mkDS mergeMeta ds_in files).metadata = (mkDS files).metadata) := by
  refine ⟨by simp [run_bax_to_bam, hmulti, hfan], ?_, ?_, ?_⟩
  · unfold bax_multi_out
    cases List.lookup "Description" ds_in.objMetadata <;> rfl
  · intro d hd
    simp [bax_multi_out, hd, lookup_setKey]
  · intro h
    simp [bax_multi_out, h]

/-- Witness for C1 at a concrete two-movie input carrying a Description. -/
theorem claim_C1_witness :
    (1 < (["m1", "m2"] : List String).dedup.length) ∧
    bax_fanout (fun _ _ => 0) (dirname "/out/o.xml")
      ["/d/a.1.bax.h5", "/d/b.1.bax.h5"] =
      (Except.ok ["/out/a.1.hdfsubreadset.xml", "/out/b.1.hdfsubreadset.xml"],
       [BaxEvent.convert "/d/a.1.bax.h5" "/out/a.1.hdfsubreadset.xml",
        BaxEvent.convert "/d/b.1.bax.h5" "/out/b.1.hdfsubreadset.xml"]) ∧
    (bax_multi_out (fun _ => ⟨[("Other", "x")], "M0"⟩) (fun a b => a ++ "+" ++ b)
      ⟨"NAME", ["m1", "m2"], ["/d/a.1.bax.h5", "/d/b.1.bax.h5"],
       [("Description", "DD")], "MI"⟩
      ["/out/a.1.hdfsubreadset.xml", "/out/b.1.hdfsubreadset.xml"]).name = "NAME" ∧
    List.lookup "Description"
      (bax_multi_out (fun _ => ⟨[("Other", "x")], "M0"⟩) (fun a b => a ++ "+" ++ b)
        ⟨"NAME", ["m1", "m2"], ["/d/a.1.bax.h5", "/d/b.1.bax.h5"],
         [("Description", "DD")], "MI"⟩
        ["/out/a.1.hdfsubreadset.xml", "/out/b.1.hdfsubreadset.xml"]).objMetadata =
      some "DD" :=
  ⟨by decide, by rfl,
   (claim_C1_merge_name_description (fun _ _ => 0)
     (fun _ => ⟨[("Other", "x")], "M0"⟩) (fun a b => a ++ "+" ++ b)
     ⟨"NAME", ["m1", "m2"], ["/d/a.1.bax.h5", "/d/b.1.bax.h5"],
      [("Description", "DD")], "MI"⟩
     "/in/i.xml" "/out/o.xml"
     ["/out/a.1.hdfsubreadset.xml", "/out/b.1.hdfsubreadset.xml"] _
     (by decide) (by rfl)).2.1,
   ((claim_C1_merge_name_description (fun _ _ => 0)
     (fun _ => ⟨[("Other", "x")], "M0"⟩) (fun a b => a ++ "+" ++ b)
     ⟨"NAME", ["m1", "m2"], ["/d/a.1.bax.h5", "/d/b.1.bax.h5"],
      [("Description", "DD")], "MI"⟩
     "/in/i.xml" "/out/o.xml"
     ["/out/a.1.hdfsubreadset.xml", "/out/b.1.hdfsubreadset.xml"] _
     (by decide) (by rfl)).2.2.1 "DD" (by rfl)).1⟩

/-- C2: for an input whose resource readers report exactly one distinct
    movie identity, run_bax_to_bam delegates a single converter call with
    the original input and output paths, and its trace holds nothing else
    (no intermediate per-movie dataset files are created). -/
theorem claim_C2_single_movie_delegates
    (runConv : String → String → Int) (mkDS : List String → DSInit)
    (mergeMeta : String → String → String) (ds_in : HdfSubreadSet)
    (inp out : String)
    (h : ds_in.resourceReaders.dedup.length = 1) :
    run_bax_to_bam runConv mkDS mergeMeta ds_in inp out =
      (runConv inp out, [BaxEvent.convert inp out]) :=
  bax_single_path runConv mkDS mergeMeta ds_in inp out (by omega)

/-- Witness for C2: one movie reported by two readers. -/
theorem claim_C2_witness :
    ((⟨"N", ["m", "m"], ["/d/a.1.bax.h5"], [], "MI"⟩ :
      HdfSubreadSet).resourceReaders.dedup.length = 1) ∧
    run_bax_to_bam (fun _ _ => 3) (fun _ => ⟨[], "M0"⟩) (fun a b => a ++ b)
      ⟨"N", ["m", "m"], ["/d/a.1.bax.h5"], [], "MI"⟩ "/in/i.xml" "/out/o.xml" =
      (3, [BaxEvent.convert "/in/i.xml" "/out/o.xml"]) :=
  ⟨by decide,
   claim_C2_single_movie_delegates (fun _ _ => 3) (fun _ => ⟨[], "M0"⟩)
     (fun a b => a ++ b) ⟨"N", ["m", "m"], ["/d/a.1.bax.h5"], [], "MI"⟩
     "/in/i.xml" "/out/o.xml" (by decide)⟩

/-- C3: on the multi-movie fan-out, the first per-movie conversion that
    exits non-zero makes run_bax_to_bam return that exit status unchanged;
    the trace shows exactly the conversions up to and including the failing
    one and no written dataset. -/
theorem claim_C3_fanout_fail_fast
    (runConv : String → String → Int) (mkDS : List String → DSInit)
    (mergeMeta : String → String → String) (ds_in : HdfSubreadSet)
    (inp out : String) (pre : List String) (bad : String) (rest : List String)
    (rc : Int)
    (hmulti : 1 < ds_in.resourceReaders.dedup.length)
    (hfiles : ds_in.toExternalFiles = pre ++ bad :: rest)
    (hpre : ∀ f ∈ pre, runConv f (baxTmpName (dirname out) f) = 0)
    (hbad : runConv bad (baxTmpName (dirname out) bad) = rc)
    (hrc : rc ≠ 0) :
    run_bax_to_bam runConv mkDS mergeMeta ds_in inp out =
      (rc, (pre ++ [bad]).map (fun f => BaxEvent.convert f (baxTmpName (dirname out) f))) ∧
    (run_bax_to_bam runConv mkDS mergeMeta ds_in inp out).2.countP isWriteBax = 0 := by
  have hfan := bax_fanout_fail runConv (dirname out) pre bad rest rc hpre hbad hrc
  have hrun : run_bax_to_bam runConv mkDS mergeMeta ds_in inp out =
      (rc, (pre ++ [bad]).map (fun f => BaxEvent.convert f (baxTmpName (dirname out) f))) := by
    simp [run_bax_to_bam, hmulti, hfiles, hfan]
  refine ⟨hrun, ?_⟩
  rw [hrun]
  simp [List.countP_eq_zero]
  exact ⟨fun a _ => rfl, rfl⟩

/-- Witness for C3: the second of two conversions fails with exit 7. -/
theorem claim_C3_witness :
    run_bax_to_bam
      (fun f _ => if f = "/d/a.1.bax.h5" then 0 else 7)
      (fun _ => ⟨[], "M0"⟩) (fun a b => a ++ b)
      ⟨"N", ["m1", "m2"], ["/d/a.1.bax.h5", "/d/b.1.bax.h5"], [], "MI"⟩
      "/in/i.xml" "/out/o.xml" =
      (7, [BaxEvent.convert "/d/a.1.bax.h5" "/out/a.1.hdfsubreadset.xml",
           BaxEvent.convert "/d/b.1.bax.h5" "/out/b.1.hdfsubreadset.xml"]) :=
  ((claim_C3_fanout_fail_fast
      (fun f _ => if f = "/d/a.1.bax.h5" then 0 else 7)
      (fun _ => ⟨[], "M0"⟩) (fun a b => a ++ b)
      ⟨"N", ["m1", "m2"], ["/d/a.1.bax.h5", "/d/b.1.bax.h5"], [], "MI"⟩
      "/in/i.xml" "/out/o.xml" ["/d/a.1.bax.h5"] "/d/b.1.bax.h5" [] 7
      (by decide) (by rfl) (by decide) (by decide) (by decide)).1).trans
    (by rfl)

/-- C10: with at most one distinct movie identity (in particular with an
    empty resource-reader list), run_bax_to_bam takes the single-file path
    with the original input and output paths; the fan-out branch is entered
    only when strictly more than one distinct identity is present. -/
theorem claim_C10_at_most_one_movie
    (runConv : String → String → Int) (mkDS : List String → DSInit)
    (mergeMeta : String → String → String) (ds_in : HdfSubreadSet)
    (inp out : String)
    (h : ds_in.resourceReaders.dedup.length ≤ 1) :
    run_bax_to_bam runConv mkDS mergeMeta ds_in inp out =
      (runConv inp out, [BaxEvent.convert inp out]) :=
  bax_single_path runConv mkDS mergeMeta ds_in inp out (by omega)

/-- Witness for C10: zero resource readers, hence zero movie identities. -/
theorem claim_C10_witness :
    ((⟨"N", [], [], [], "MI"⟩ : HdfSubreadSet).resourceReaders.dedup.length ≤ 1) ∧
    run_bax_to_bam (fun _ _ => 5) (fun _ => ⟨[], "M0"⟩) (fun a b => a ++ b)
      ⟨"N", [], [], [], "MI"⟩ "/in/i.xml" "/out/o.xml" =
      (5, [BaxEvent.convert "/in/i.xml" "/out/o.xml"]) :=
  ⟨by decide,
   claim_C10_at_most_one_movie (fun _ _ => 5) (fun _ => ⟨[], "M0"⟩)
     (fun a b => a ++ b) ⟨"N", [], [], [], "MI"⟩ "/in/i.xml" "/out/o.xml"
     (by decide)⟩

/- ### Per-pair descriptions of the bam2bam loop, for stating trace facts -/

/-- The args list the loop hands to run_cmd for a resource pair (reading the
    primary/scraps paths out of the pair). -/
def pairArgsOf (subread_set_file output_file_name barcode_fasta score_mode : String)
    (nproc : Nat) (r : ExtRes) : List String :=
  bam2bamArgs nproc (newPfxOf output_file_name (r.bam.getD ""))
    barcode_fasta score_mode
    (resolvePath subread_set_file (r.bam.getD ""))
    (resolvePath subread_set_file (r.scraps.getD ""))

/-- A resource pair that the loop processes completely: both paths present,
    the splitter exits 0 and the expected barcoded output file exists. -/
def pairOk (runCmd : List String → Int) (isfile : String → Bool)
    (subread_set_file output_file_name barcode_fasta score_mode : String)
    (nproc : Nat) (r : ExtRes) : Bool :=
  r.bam.isSome && r.scraps.isSome &&
  (runCmd (pairArgsOf subread_set_file output_file_name barcode_fasta score_mode nproc r) == 0) &&
  isfile (newPfxOf output_file_name (r.bam.getD "") ++ ".subreads.bam")

/-- The resource-tree node the loop appends for a completed pair. -/
def pairNode (output_file_name barcode_set_file : String) (r : ExtRes) : ResNode :=
  mkResNode (newPfxOf output_file_name (r.bam.getD "") ++ ".subreads.bam")
    (newPfxOf output_file_name (r.bam.getD "") ++ ".scraps.bam") barcode_set_file

/-- Splitting the loop at a block of completely processed pairs: the block
    contributes one cmd event and one resource node per pair, and the loop
    continues on the remainder. -/
theorem bam2bamLoop_append (runCmd : List String → Int) (isfile : String → Bool)
    (ssf bsf out bf sm : String) (np : Nat) (pre l : List ExtRes)
    (h : ∀ r ∈ pre, pairOk runCmd isfile ssf out bf sm np r = true) :
    bam2bamLoop runCmd isfile ssf bsf out bf sm np (pre ++ l) =
      ((match (bam2bamLoop runCmd isfile ssf bsf out bf sm np l).1 with
        | BBOut.done rs => BBOut.done (pre.map (pairNode out bsf) ++ rs)
        | o => o),
       pre.map (fun r => BBEvent.cmd (pairArgsOf ssf out bf sm np r)) ++
         (bam2bamLoop runCmd isfile ssf bsf out bf sm np l).2) := by
  induction pre with
  | nil =>
    rcases hl : bam2bamLoop runCmd isfile ssf bsf out bf sm np l with ⟨o, evs⟩
    cases o <;> simp [hl]
  | cons r pre ih =>
    have hr := h r (List.mem_cons_self r pre)
    have hrest : ∀ x ∈ pre, pairOk runCmd isfile ssf out bf sm np x = true :=
      fun x hx => h x (List.mem_cons_of_mem r hx)
    rw [pairOk, Bool.and_eq_true, Bool.and_eq_true, Bool.and_eq_true] at hr
    obtain ⟨⟨⟨hbsome, hssome⟩, hcode0⟩, hfile⟩ := hr
    obtain ⟨b, hb⟩ := Option.isSome_iff_exists.mp hbsome
    obtain ⟨s, hs⟩ := Option.isSome_iff_exists.mp hssome
    have hargs : pairArgsOf ssf out bf sm np r =
        bam2bamArgs np (newPfxOf out b) bf sm (resolvePath ssf b) (resolvePath ssf s) := by
      simp [pairArgsOf, hb, hs]
    have hcode : runCmd (bam2bamArgs np (newPfxOf out b) bf sm
        (resolvePath ssf b) (resolvePath ssf s)) = 0 := by
      rw [← hargs]
      exact eq_of_beq hcode0
    have hfile2 : isfile (newPfxOf out b ++ ".subreads.bam") = true := by
      rw [hb] at hfile
      simpa using hfile
    have hnode : pairNode out bsf r =
        mkResNode (newPfxOf out b ++ ".subreads.bam") (newPfxOf out b ++ ".scraps.bam") bsf := by
      simp [pairNode, hb]
    rcases hl : bam2bamLoop runCmd isfile ssf bsf out bf sm np l with ⟨o, evs⟩
    have ih2 := ih hrest
    rw [hl] at ih2
    simp only [List.cons_append, bam2bamLoop, hb, hs, hcode, hfile2, List.append_eq]
    rw [ih2]
    cases o <;> simp [hargs, hnode]

/-- run_bam_to_bam under a valid score mode and a usable barcode set reduces
    to the per-pair loop (wrapping its outcome). -/
theorem run_bam_to_bam_valid (runCmd : List String → Int) (isfile : String → Bool)
    (bc : BarcodeSet) (ds : SubreadSetIn) (ssf bsf out : String) (np : Nat)
    (sm bf : String) (bfs : List String)
    (hsm : sm ∈ (["asymmetric", "symmetric"] : List String))
    (hbc : ¬ 1 < bc.resourceReaders.length)
    (hbf : bc.toExternalFiles = bf :: bfs) :
    run_bam_to_bam runCmd isfile bc ds ssf bsf out np sm =
      (match bam2bamLoop runCmd isfile ssf bsf out bf sm np ds.externalResources with
       | (BBOut.err e, evs) => (Except.error e, evs)
       | (BBOut.earlyExit c, evs) => (Except.ok c, evs)
       | (BBOut.done rs, evs) =>
         (Except.ok 0, evs ++ [BBEvent.writeDataset out rs ds.filters])) := by
  simp [run_bam_to_bam, hsm, hbc, hbf]

/- ### Claims about run_bam_to_bam -/

/-- C4: an unrecognized score mode, or a barcode set with more than one
    underlying reference file, makes run_bam_to_bam raise a usage error
    (ValueError respectively NotImplementedError) with an empty trace: no
    external process is launched and nothing is written. -/
theorem claim_C4_usage_errors_before_any_process
    (runCmd : List String → Int) (isfile : String → Bool)
    (bc : BarcodeSet) (ds : SubreadSetIn)
    (ssf bsf out : String) (np : Nat) (sm : String)
    (h : ¬ sm ∈ (["asymmetric", "symmetric"] : List String) ∨
      1 < bc.resourceReaders.length) :
    ((run_bam_to_bam runCmd isfile bc ds ssf bsf out np sm).1 =
        Except.error (PyError.valueError ("Unrecognized score mode \x27" ++ sm ++ "\x27")) ∨
      (run_bam_to_bam runCmd isfile bc ds ssf bsf out np sm).1 =
        Except.error (PyError.notImplementedError "Multi-FASTA BarcodeSet input is not supported.")) ∧
    (run_bam_to_bam runCmd isfile bc ds ssf bsf out np sm).2 = [] := by
  by_cases hsm : sm ∈ (["asymmetric", "symmetric"] : List String)
  · have hbc : 1 < bc.resourceReaders.length := h.resolve_left (not_not_intro hsm)
    refine ⟨Or.inr ?_, ?_⟩ <;> simp [run_bam_to_bam, hsm, hbc]
  · refine ⟨Or.inl ?_, ?_⟩ <;> simp [run_bam_to_bam, hsm]

/-- Witness for C4 at the score mode "bogus". -/
theorem claim_C4_witness :
    (¬ "bogus" ∈ (["asymmetric", "symmetric"] : List String) ∨
      1 < (⟨["r1"], ["/bc/b.fasta"]⟩ : BarcodeSet).resourceReaders.length) ∧
    ((run_bam_to_bam (fun _ => 0) (fun _ => true) ⟨["r1"], ["/bc/b.fasta"]⟩
        ⟨[], "F"⟩ "/in/s.xml" "/bc/b.xml" "/out/o.xml" 1 "bogus").1 =
        Except.error (PyError.valueError ("Unrecognized score mode \x27" ++ "bogus" ++ "\x27")) ∨
      (run_bam_to_bam (fun _ => 0) (fun _ => true) ⟨["r1"], ["/bc/b.fasta"]⟩
        ⟨[], "F"⟩ "/in/s.xml" "/bc/b.xml" "/out/o.xml" 1 "bogus").1 =
        Except.error (PyError.notImplementedError "Multi-FASTA BarcodeSet input is not supported.")) ∧
    (run_bam_to_bam (fun _ => 0) (fun _ => true) ⟨["r1"], ["/bc/b.fasta"]⟩
      ⟨[], "F"⟩ "/in/s.xml" "/bc/b.xml" "/out/o.xml" 1 "bogus").2 = [] :=
  ⟨Or.inl (by decide),
   (claim_C4_usage_errors_before_any_process (fun _ => 0) (fun _ => true)
     ⟨["r1"], ["/bc/b.fasta"]⟩ ⟨[], "F"⟩ "/in/s.xml" "/bc/b.xml" "/out/o.xml"
     1 "bogus" (Or.inl (by decide))).1,
   (claim_C4_usage_errors_before_any_process (fun _ => 0) (fun _ => true)
     ⟨["r1"], ["/bc/b.fasta"]⟩ ⟨[], "F"⟩ "/in/s.xml" "/bc/b.xml" "/out/o.xml"
     1 "bogus" (Or.inl (by decide))).2⟩

/-- Counterexample to C5 as stated: with a first resource pair that has its
    scraps file and a second pair that lacks it, run_bam_to_bam raises the
    TypeError, yet one external splitter process has already been launched —
    the failure does not precede every external process launch. -/
theorem claim_C5_counterexample :
    (run_bam_to_bam (fun _ => 0) (fun _ => true)
        ⟨["r1"], ["/bc/barcodes.fasta"]⟩
        ⟨[⟨some "a.subreads.bam", some "a.scraps.bam"⟩,
          ⟨some "b.subreads.bam", none⟩], "F"⟩
        "/in/ss.xml" "/bc/bc.xml" "/out/o.xml" 1 "symmetric").1 =
      Except.error (PyError.typeError "The input SubreadSet must include scraps.") ∧
    (run_bam_to_bam (fun _ => 0) (fun _ => true)
        ⟨["r1"], ["/bc/barcodes.fasta"]⟩
        ⟨[⟨some "a.subreads.bam", some "a.scraps.bam"⟩,
          ⟨some "b.subreads.bam", none⟩], "F"⟩
        "/in/ss.xml" "/bc/bc.xml" "/out/o.xml" 1 "symmetric").2.countP isCmdBB = 1 :=
  ⟨by rfl, by rfl⟩

/-- C5 (amended): when the rebuilder reaches a resource pair whose scraps
    file is missing (its primary present, every earlier pair complete and
    successfully processed), it raises the TypeError immediately — before
    launching the splitter for that pair — and no output dataset is
    written; exactly one splitter process was launched per earlier pair. -/
theorem claim_C5_amended_missing_scraps
    (runCmd : List String → Int) (isfile : String → Bool)
    (bc : BarcodeSet) (ds : SubreadSetIn) (ssf bsf out : String) (np : Nat)
    (sm bf : String) (bfs : List String)
    (pre : List ExtRes) (bad : ExtRes) (rest : List ExtRes) (sb : String)
    (hsm : sm ∈ (["asymmetric", "symmetric"] : List String))
    (hbc : ¬ 1 < bc.resourceReaders.length)
    (hbf : bc.toExternalFiles = bf :: bfs)
    (hres : ds.externalResources = pre ++ bad :: rest)
    (hpre : ∀ r ∈ pre, pairOk runCmd isfile ssf out bf sm np r = true)
    (hbadbam : bad.bam = some sb) (hbadscr : bad.scraps = none) :
    (run_bam_to_bam runCmd isfile bc ds ssf bsf out np sm).1 =
      Except.error (PyError.typeError "The input SubreadSet must include scraps.") ∧
    (run_bam_to_bam runCmd isfile bc ds ssf bsf out np sm).2.countP isCmdBB =
      pre.length ∧
    (run_bam_to_bam runCmd isfile bc ds ssf bsf out np sm).2.countP isWriteBB = 0 := by
  have hloop : bam2bamLoop runCmd isfile ssf bsf out bf sm np (pre ++ bad :: rest) =
      (BBOut.err (PyError.typeError "The input SubreadSet must include scraps."),
       pre.map (fun r => BBEvent.cmd (pairArgsOf ssf out bf sm np r))) := by
    rw [bam2bamLoop_append runCmd isfile ssf bsf out bf sm np pre (bad :: rest) hpre]
    simp [bam2bamLoop, hbadbam, hbadscr]
  have hrun := run_bam_to_bam_valid runCmd isfile bc ds ssf bsf out np sm bf bfs
    hsm hbc hbf
  rw [hres, hloop] at hrun
  refine ⟨?_, ?_, ?_⟩ <;> rw [hrun] <;>
    simp [List.countP_map, isCmdBB, isWriteBB, Function.comp]

/-- Witness for the amended C5: one successfully split pair, then a pair
    with no scraps file. -/
theorem claim_C5_amended_witness :
    (run_bam_to_bam (fun _ => 0) (fun _ => true)
        ⟨["r1"], ["/bc/barcodes.fasta"]⟩
        ⟨[⟨some "a.subreads.bam", some "a.scraps.bam"⟩,
          ⟨some "b.subreads.bam", none⟩], "F"⟩
        "/in/ss.xml" "/bc/bc.xml" "/out/o.xml" 1 "symmetric").1 =
      Except.error (PyError.typeError "The input SubreadSet must include scraps.") ∧
    (run_bam_to_bam (fun _ => 0) (fun _ => true)
        ⟨["r1"], ["/bc/barcodes.fasta"]⟩
        ⟨[⟨some "a.subreads.bam", some "a.scraps.bam"⟩,
          ⟨some "b.subreads.bam", none⟩], "F"⟩
        "/in/ss.xml" "/bc/bc.xml" "/out/o.xml" 1 "symmetric").2.countP isCmdBB =
      [(⟨some "a.subreads.bam", some "a.scraps.bam"⟩ : ExtRes)].length ∧
    (run_bam_to_bam (fun _ => 0) (fun _ => true)
        ⟨["r1"], ["/bc/barcodes.fasta"]⟩
        ⟨[⟨some "a.subreads.bam", some "a.scraps.bam"⟩,
          ⟨some "b.subreads.bam", none⟩], "F"⟩
        "/in/ss.xml" "/bc/bc.xml" "/out/o.xml" 1 "symmetric").2.countP isWriteBB = 0 :=
  claim_C5_amended_missing_scraps (fun _ => 0) (fun _ => true)
    ⟨["r1"], ["/bc/barcodes.fasta"]⟩
    ⟨[⟨some "a.subreads.bam", some "a.scraps.bam"⟩,
      ⟨some "b.subreads.bam", none⟩], "F"⟩
    "/in/ss.xml" "/bc/bc.xml" "/out/o.xml" 1 "symmetric" "/bc/barcodes.fasta" []
    [⟨some "a.subreads.bam", some "a.scraps.bam"⟩] ⟨some "b.subreads.bam", none⟩ []
    "b.subreads.bam"
    (by decide) (by decide) (by rfl) (by rfl) (by decide) (by rfl) (by rfl)

/-- C6: when the external splitter exits non-zero on a resource pair (every
    earlier pair having been processed successfully), run_bam_to_bam stops
    immediately, returns that exit status as its result, and writes no
    (partial) output dataset: the trace holds exactly one splitter launch
    per earlier pair plus the failing one, and no dataset-write event. -/
theorem claim_C6_splitter_failure_propagates
    (runCmd : List String → Int) (isfile : String → Bool)
    (bc : BarcodeSet) (ds : SubreadSetIn) (ssf bsf out : String) (np : Nat)
    (sm bf : String) (bfs : List String)
    (pre : List ExtRes) (res : ExtRes) (rest : List ExtRes)
    (sb sc : String) (rc : Int)
    (hsm : sm ∈ (["asymmetric", "symmetric"] : List String))
    (hbc : ¬ 1 < bc.resourceReaders.length)
    (hbf : bc.toExternalFiles = bf :: bfs)
    (hres : ds.externalResources = pre ++ res :: rest)
    (hpre : ∀ r ∈ pre, pairOk runCmd isfile ssf out bf sm np r = true)
    (hb : res.bam = some sb) (hs : res.scraps = some sc)
    (hrc : runCmd (bam2bamArgs np (newPfxOf out sb) bf sm
      (resolvePath ssf sb) (resolvePath ssf sc)) = rc)
    (hne : rc ≠ 0) :
    (run_bam_to_bam runCmd isfile bc ds ssf bsf out np sm).1 = Except.ok rc ∧
    (run_bam_to_bam runCmd isfile bc ds ssf bsf out np sm).2.countP isCmdBB =
      pre.length + 1 ∧
    (run_bam_to_bam runCmd isfile bc ds ssf bsf out np sm).2.countP isWriteBB = 0 := by
  have hloop : bam2bamLoop runCmd isfile ssf bsf out bf sm np (pre ++ res :: rest) =
      (BBOut.earlyExit rc,
       pre.map (fun r => BBEvent.cmd (pairArgsOf ssf out bf sm np r)) ++
         [BBEvent.cmd (bam2bamArgs np (newPfxOf out sb) bf sm
           (resolvePath ssf sb) (resolvePath ssf sc))]) := by
    rw [bam2bamLoop_append runCmd isfile ssf bsf out bf sm np pre (res :: rest) hpre]
    simp [bam2bamLoop, hb, hs, hrc, hne]
  have hrun := run_bam_to_bam_valid runCmd isfile bc ds ssf bsf out np sm bf bfs
    hsm hbc hbf
  rw [hres, hloop] at hrun
  refine ⟨?_, ?_, ?_⟩ <;> rw [hrun] <;>
    simp [List.countP_map, isCmdBB, isWriteBB, Function.comp]

/-- Witness for C6: a single resource pair whose splitter run exits 2. -/
theorem claim_C6_witness :
    (run_bam_to_bam (fun _ => 2) (fun _ => true)
        ⟨["r1"], ["/bc/barcodes.fasta"]⟩
        ⟨[⟨some "a.subreads.bam", some "a.scraps.bam"⟩], "F"⟩
        "/in/ss.xml" "/bc/bc.xml" "/out/o.xml" 1 "symmetric").1 = Except.ok 2 ∧
    (run_bam_to_bam (fun _ => 2) (fun _ => true)
        ⟨["r1"], ["/bc/barcodes.fasta"]⟩
        ⟨[⟨some "a.subreads.bam", some "a.scraps.bam"⟩], "F"⟩
        "/in/ss.xml" "/bc/bc.xml" "/out/o.xml" 1 "symmetric").2.countP isCmdBB =
      ([] : List ExtRes).length + 1 ∧
    (run_bam_to_bam (fun _ => 2) (fun _ => true)
        ⟨["r1"], ["/bc/barcodes.fasta"]⟩
        ⟨[⟨some "a.subreads.bam", some "a.scraps.bam"⟩], "F"⟩
        "/in/ss.xml" "/bc/bc.xml" "/out/o.xml" 1 "symmetric").2.countP isWriteBB = 0 :=
  claim_C6_splitter_failure_propagates (fun _ => 2) (fun _ => true)
    ⟨["r1"], ["/bc/barcodes.fasta"]⟩
    ⟨[⟨some "a.subreads.bam", some "a.scraps.bam"⟩], "F"⟩
    "/in/ss.xml" "/bc/bc.xml" "/out/o.xml" 1 "symmetric" "/bc/barcodes.fasta" []
    [] ⟨some "a.subreads.bam", some "a.scraps.bam"⟩ [] "a.subreads.bam" "a.scraps.bam" 2
    (by decide) (by decide) (by rfl) (by rfl) (by decide) (by rfl) (by rfl)
    (by rfl) (by decide)

/- ### Facts about the regex substitution -/

/-- A list without any occurrence of the pattern is left unchanged by the
    substitution scan. -/
theorem reSubAux_of_not_hasPat :
    ∀ (n : Nat) (l : List Char), l.length ≤ n → hasPat l = false → reSubAux n l = l := by
  intro n
  induction n with
  | zero =>
    intro l hl _
    cases l with
    | nil => rfl
    | cons c cs => simp at hl
  | succ n ih =>
    intro l hl hp
    cases l with
    | nil => rfl
    | cons c cs =>
      have h1 : (patSplit (c :: cs)).isSome = false ∧ hasPat cs = false := by
        simpa [hasPat] using hp
      have h2 : patSplit (c :: cs) = none :=
        Option.not_isSome_iff_eq_none.mp (by simp [h1.1])
      simp only [reSubAux, h2]
      rw [ih cs (by simpa using Nat.le_of_succ_le_succ hl) h1.2]

/-- A string in which the pattern ".subreads.bam" has no match is returned
    unchanged by re.sub. -/
theorem subreadsToBarcoded_of_not_hasPat (s : String) (h : hasPat s.data = false) :
    subreadsToBarcoded s = s := by
  obtain ⟨d⟩ := s
  show String.mk (reSubAux d.length d) = String.mk d
  rw [reSubAux_of_not_hasPat d.length d (le_refl _) h]

theorem mem_of_head?_eq {α : Type} {l : List α} {a : α} (h : l.head? = some a) :
    a ∈ l := by
  cases l with
  | nil => simp at h
  | cons x xs =>
    simp only [List.head?_cons, Option.some.injEq] at h
    rw [← h]
    exact List.mem_cons_self x xs

/-- The loop's first event on a pair with both paths present is the splitter
    launch for that pair, whatever happens afterwards. -/
theorem bam2bamLoop_head_event (runCmd : List String → Int) (isfile : String → Bool)
    (ssf bsf out bf sm : String) (np : Nat) (er : ExtRes) (rest : List ExtRes)
    (b s : String) (hb : er.bam = some b) (hs : er.scraps = some s) :
    (bam2bamLoop runCmd isfile ssf bsf out bf sm np (er :: rest)).2.head? =
      some (BBEvent.cmd (bam2bamArgs np (newPfxOf out b) bf sm
        (resolvePath ssf b) (resolvePath ssf s))) := by
  by_cases hc : runCmd (bam2bamArgs np (newPfxOf out b) bf sm
      (resolvePath ssf b) (resolvePath ssf s)) = 0
  · by_cases hf : isfile (newPfxOf out b ++ ".subreads.bam") = true
    · rcases hrec : bam2bamLoop runCmd isfile ssf bsf out bf sm np rest with ⟨o, evs⟩
      cases o <;> simp [bam2bamLoop, hb, hs, hc, hf, hrec]
    · simp [bam2bamLoop, hb, hs, hc, hf]
  · simp [bam2bamLoop, hb, hs, hc]

/-- The j-th argument of the first launched command in a trace. -/
def firstCmdArg (evs : List BBEvent) (j : Nat) : Option String :=
  match evs with
  | BBEvent.cmd a :: _ => a[j]?
  | _ => none

/-- Counterexample to C9 as stated: the base name "movie_subreads.bam" does
    not carry the ".subreads.bam" suffix, so the claim would leave it
    unchanged — but the regex substitution (the pattern's dots match any
    character) rewrites it, and the splitter is invoked with the output
    path "/out/movie_barcoded" instead of "/out/movie_subreads.bam". -/
theorem claim_C9_counterexample :
    firstCmdArg (run_bam_to_bam (fun _ => 0) (fun _ => true)
        ⟨["r1"], ["/bc/barcodes.fasta"]⟩
        ⟨[⟨some "movie_subreads.bam", some "movie.scraps.bam"⟩], "F"⟩
        "/in/ss.xml" "/bc/bc.xml" "/out/o.xml" 1 "symmetric").2 6 =
      some "/out/movie_barcoded" ∧
    List.isSuffixOf ".subreads.bam".data "movie_subreads.bam".data = false ∧
    "/out/movie_barcoded" ≠
      pathJoin (dirname "/out/o.xml") (basename "movie_subreads.bam") :=
  ⟨by rfl, by decide, by decide⟩

/-- C9 (amended): the output path handed to the splitter for a resource pair
    is obtained by applying re.sub(".subreads.bam", "_barcoded", ·) — an
    unanchored regex rewrite of every leftmost occurrence, whose dots match
    any non-newline character — to the primary file's base name, placed in
    the overall output file's directory; base names with no occurrence of
    the pattern are left unchanged. -/
theorem claim_C9_amended_splitter_path_derivation
    (runCmd : List String → Int) (isfile : String → Bool)
    (bc : BarcodeSet) (ds : SubreadSetIn) (ssf bsf out : String) (np : Nat)
    (sm bf : String) (bfs : List String)
    (pre : List ExtRes) (res : ExtRes) (rest : List ExtRes) (sb sc : String)
    (hsm : sm ∈ (["asymmetric", "symmetric"] : List String))
    (hbc : ¬ 1 < bc.resourceReaders.length)
    (hbf : bc.toExternalFiles = bf :: bfs)
    (hres : ds.externalResources = pre ++ res :: rest)
    (hpre : ∀ r ∈ pre, pairOk runCmd isfile ssf out bf sm np r = true)
    (hb : res.bam = some sb) (hs : res.scraps = some sc) :
    BBEvent.cmd (bam2bamArgs np
        (pathJoin (dirname out) (subreadsToBarcoded (basename sb))) bf sm
        (resolvePath ssf sb) (resolvePath ssf sc)) ∈
      (run_bam_to_bam runCmd isfile bc ds ssf bsf out np sm).2 ∧
    (∀ s2 : String, hasPat s2.data = false → subreadsToBarcoded s2 = s2) := by
  refine ⟨?_, fun s2 h2 => subreadsToBarcoded_of_not_hasPat s2 h2⟩
  have hhead := bam2bamLoop_head_event runCmd isfile ssf bsf out bf sm np res rest
    sb sc hb hs
  have happend := bam2bamLoop_append runCmd isfile ssf bsf out bf sm np pre
    (res :: rest) hpre
  rcases hloop : bam2bamLoop runCmd isfile ssf bsf out bf sm np (res :: rest)
    with ⟨o, evs⟩
  rw [hloop] at hhead happend
  have hmem : BBEvent.cmd (bam2bamArgs np (newPfxOf out sb) bf sm
      (resolvePath ssf sb) (resolvePath ssf sc)) ∈ evs :=
    mem_of_head?_eq hhead
  have hrun := run_bam_to_bam_valid runCmd isfile bc ds ssf bsf out np sm bf bfs
    hsm hbc hbf
  rw [hres, happend] at hrun
  show BBEvent.cmd (bam2bamArgs np (newPfxOf out sb) bf sm
    (resolvePath ssf sb) (resolvePath ssf sc)) ∈
    (run_bam_to_bam runCmd isfile bc ds ssf bsf out np sm).2
  rw [hrun]
  cases o <;> simp [List.mem_append, hmem]

/-- Witness for the amended C9: the base name "movie_subreads.bam" is mapped
    to the launch path "/out/movie_barcoded", and a pattern-free name is
    left unchanged. -/
theorem claim_C9_amended_witness :
    BBEvent.cmd (bam2bamArgs 1
        (pathJoin (dirname "/out/o.xml") (subreadsToBarcoded (basename "movie_subreads.bam")))
        "/bc/barcodes.fasta" "symmetric"
        (resolvePath "/in/ss.xml" "movie_subreads.bam")
        (resolvePath "/in/ss.xml" "movie.scraps.bam")) ∈
      (run_bam_to_bam (fun _ => 0) (fun _ => true)
        ⟨["r1"], ["/bc/barcodes.fasta"]⟩
        ⟨[⟨some "movie_subreads.bam", some "movie.scraps.bam"⟩], "F"⟩
        "/in/ss.xml" "/bc/bc.xml" "/out/o.xml" 1 "symmetric").2 ∧
    subreadsToBarcoded "reads.bam" = "reads.bam" :=
  ⟨(claim_C9_amended_splitter_path_derivation (fun _ => 0) (fun _ => true)
      ⟨["r1"], ["/bc/barcodes.fasta"]⟩
      ⟨[⟨some "movie_subreads.bam", some "movie.scraps.bam"⟩], "F"⟩
      "/in/ss.xml" "/bc/bc.xml" "/out/o.xml" 1 "symmetric" "/bc/barcodes.fasta" []
      [] ⟨some "movie_subreads.bam", some "movie.scraps.bam"⟩ []
      "movie_subreads.bam" "movie.scraps.bam"
      (by decide) (by decide) (by rfl) (by rfl) (by decide) (by rfl) (by rfl)).1,
   (claim_C9_amended_splitter_path_derivation (fun _ => 0) (fun _ => true)
      ⟨["r1"], ["/bc/barcodes.fasta"]⟩
      ⟨[⟨some "movie_subreads.bam", some "movie.scraps.bam"⟩], "F"⟩
      "/in/ss.xml" "/bc/bc.xml" "/out/o.xml" 1 "symmetric" "/bc/barcodes.fasta" []
      [] ⟨some "movie_subreads.bam", some "movie.scraps.bam"⟩ []
      "movie_subreads.bam" "movie.scraps.bam"
      (by decide) (by decide) (by rfl) (by rfl) (by decide) (by rfl) (by rfl)).2
     "reads.bam" (by decide)⟩

/- ### Claims about run_bam_to_fastx -/

theorem writtenRecords_append (a b : List FxEvent) :
    writtenRecords (a ++ b) = writtenRecords a ++ writtenRecords b := by
  simp [writtenRecords]

theorem writtenRecords_map_write (l : List FastxRecord) :
    writtenRecords (l.map FxEvent.writeRecord) = l := by
  induction l with
  | nil => rfl
  | cons r t ih => simp [writtenRecords] at ih ⊢; exact ih

theorem writtenRecords_fxLogEvents (m : Int) :
    writtenRecords (fxLogEvents m) = [] := by
  unfold fxLogEvents
  split
  · rfl
  · split <;> rfl

/-- The full event trace of run_bam_to_fastx on the successful path. -/
theorem run_bam_to_fastx_success_trace
    (runCmd : List String → Int) (isfile : String → Bool)
    (readRecords : String → List FastxRecord) (tmp_out_pfx : String)
    (prog inp outf : String) (m : Int)
    (hrun : runCmd [prog, "-o", tmp_out_pfx, inp] = 0)
    (hfile : isfile (tmpOutName tmp_out_pfx prog) = true) :
    (run_bam_to_fastx runCmd isfile readRecords tmp_out_pfx prog inp outf m).2 =
      [FxEvent.cmd [prog, "-o", tmp_out_pfx, inp],
       FxEvent.logInfo ("raw output in " ++ tmpOutName tmp_out_pfx prog)] ++
        fxLogEvents m ++
        ((readRecords (tmpOutName tmp_out_pfx prog)).filter (keepRecord m)).map
          FxEvent.writeRecord ++
        [FxEvent.removeFile (tmpOutName tmp_out_pfx prog)] := by
  simp [run_bam_to_fastx, hrun, hfile]

/-- C7: a parsed record is re-emitted exactly when the threshold is at most
    zero (with the non-fatal warning logged when it is negative) or the
    record's sequence length is strictly greater than the threshold; with
    threshold 0 the output count equals the input count, and with a positive
    threshold every output record is strictly longer than it and the output
    count is at most the input count. -/
theorem claim_C7_length_filter
    (runCmd : List String → Int) (isfile : String → Bool)
    (readRecords : String → List FastxRecord) (tmp_out_pfx : String)
    (prog inp outf : String) (m : Int)
    (hrun : runCmd [prog, "-o", tmp_out_pfx, inp] = 0)
    (hfile : isfile (tmpOutName tmp_out_pfx prog) = true) :
    writtenRecords (run_bam_to_fastx runCmd isfile readRecords tmp_out_pfx prog inp outf m).2 =
      (readRecords (tmpOutName tmp_out_pfx prog)).filter (keepRecord m) ∧
    (∀ r : FastxRecord, keepRecord m r = true ↔
      (m ≤ 0 ∨ m < (r.sequence.length : Int))) ∧
    (m = 0 →
      (writtenRecords (run_bam_to_fastx runCmd isfile readRecords tmp_out_pfx prog inp outf m).2).length =
        (readRecords (tmpOutName tmp_out_pfx prog)).length) ∧
    (0 < m →
      (∀ r ∈ writtenRecords (run_bam_to_fastx runCmd isfile readRecords tmp_out_pfx prog inp outf m).2,
        m < (r.sequence.length : Int)) ∧
      (writtenRecords (run_bam_to_fastx runCmd isfile readRecords tmp_out_pfx prog inp outf m).2).length ≤
        (readRecords (tmpOutName tmp_out_pfx prog)).length) ∧
    (m < 0 →
      FxEvent.logWarn ("min_subread_length = " ++ toString m ++ ", ignoring") ∈
        (run_bam_to_fastx runCmd isfile readRecords tmp_out_pfx prog inp outf m).2 ∧
      writtenRecords (run_bam_to_fastx runCmd isfile readRecords tmp_out_pfx prog inp outf m).2 =
        readRecords (tmpOutName tmp_out_pfx prog)) := by
  have hev := run_bam_to_fastx_success_trace runCmd isfile readRecords tmp_out_pfx
    prog inp outf m hrun hfile
  have hw : writtenRecords
      (run_bam_to_fastx runCmd isfile readRecords tmp_out_pfx prog inp outf m).2 =
      (readRecords (tmpOutName tmp_out_pfx prog)).filter (keepRecord m) := by
    rw [hev, writtenRecords_append, writtenRecords_append, writtenRecords_append,
      writtenRecords_fxLogEvents, writtenRecords_map_write]
    simp [writtenRecords]
  have hchar : ∀ r : FastxRecord, keepRecord m r = true ↔
      (m ≤ 0 ∨ m < (r.sequence.length : Int)) := by
    intro r
    simp only [keepRecord, Bool.or_eq_true, decide_eq_true_eq]
    omega
  refine ⟨hw, hchar, ?_, ?_, ?_⟩
  · intro hm
    subst hm
    rw [hw, List.filter_eq_self.mpr (fun a _ => by simp [keepRecord])]
  · intro hm
    constructor
    · intro r hr
      rw [hw] at hr
      have hkeep := List.of_mem_filter hr
      rcases (hchar r).mp hkeep with h | h
      · omega
      · exact h
    · rw [hw]
      exact List.length_filter_le _ _
  · intro hm
    have h1 : ¬ 0 < m := by omega
    constructor
    · rw [hev]
      simp [fxLogEvents, h1, hm]
    · rw [hw, List.filter_eq_self.mpr (fun a _ => by simp [keepRecord]; omega)]

/-- Witness for C7: threshold 3 on records of lengths 4 and 2 keeps exactly
    the length-4 record. -/
theorem claim_C7_witness :
    writtenRecords (run_bam_to_fastx (fun _ => 0) (fun _ => true)
        (fun _ => [⟨"r1", "ACGT"⟩, ⟨"r2", "AC"⟩]) "/tmp/t"
        "bam2fasta" "/in/x.xml" "/out/x.fasta" 3).2 = [⟨"r1", "ACGT"⟩] ∧
    (writtenRecords (run_bam_to_fastx (fun _ => 0) (fun _ => true)
        (fun _ => [⟨"r1", "ACGT"⟩, ⟨"r2", "AC"⟩]) "/tmp/t"
        "bam2fasta" "/in/x.xml" "/out/x.fasta" 3).2).length ≤ 2 :=
  ⟨((claim_C7_length_filter (fun _ => 0) (fun _ => true)
      (fun _ => [⟨"r1", "ACGT"⟩, ⟨"r2", "AC"⟩]) "/tmp/t"
      "bam2fasta" "/in/x.xml" "/out/x.fasta" 3 (by rfl) (by rfl)).1).trans (by rfl),
   ((claim_C7_length_filter (fun _ => 0) (fun _ => true)
      (fun _ => [⟨"r1", "ACGT"⟩, ⟨"r2", "AC"⟩]) "/tmp/t"
      "bam2fasta" "/in/x.xml" "/out/x.fasta" 3 (by rfl) (by rfl)).2.2.2.1
     (by decide)).2⟩

/-- Counterexample to C8 as stated: on the early failure return (non-zero
    exit from the extraction binary) the step performs no file removal at
    all, even though the raw output file may exist (the filesystem oracle
    reports every file as present) — deletion is not guaranteed on all exit
    paths. -/
theorem claim_C8_counterexample :
    (run_bam_to_fastx (fun _ => 1) (fun _ => true) (fun _ => []) "/tmp/t"
        "bam2fasta" "/in/x.xml" "/out/x.fasta" 0).1 = Except.ok 1 ∧
    (run_bam_to_fastx (fun _ => 1) (fun _ => true) (fun _ => []) "/tmp/t"
        "bam2fasta" "/in/x.xml" "/out/x.fasta" 0).2.countP isRemoveFx = 0 :=
  ⟨by rfl, by rfl⟩

theorem countRemove_fxLogEvents (m : Int) :
    (fxLogEvents m).countP isRemoveFx = 0 := by
  unfold fxLogEvents
  split
  · rfl
  · split <;> rfl

/-- C8 (amended): on the successful path the temporary raw file is removed
    exactly once, as the final action after the full scan and all record
    writes; on the early failure return (non-zero exit of the external
    binary) no removal is performed — the cleanup is a plain statement on
    the success path, not a cleanup block covering all exit paths. -/
theorem claim_C8_amended_cleanup_success_only
    (runCmd : List String → Int) (isfile : String → Bool)
    (readRecords : String → List FastxRecord) (tmp_out_pfx : String)
    (prog inp outf : String) (m : Int) :
    (runCmd [prog, "-o", tmp_out_pfx, inp] = 0 →
      isfile (tmpOutName tmp_out_pfx prog) = true →
      ((run_bam_to_fastx runCmd isfile readRecords tmp_out_pfx prog inp outf m).2.getLast? =
         some (FxEvent.removeFile (tmpOutName tmp_out_pfx prog)) ∧
       (run_bam_to_fastx runCmd isfile readRecords tmp_out_pfx prog inp outf m).2.countP
         isRemoveFx = 1)) ∧
    (runCmd [prog, "-o", tmp_out_pfx, inp] ≠ 0 →
      (run_bam_to_fastx runCmd isfile readRecords tmp_out_pfx prog inp outf m).2.countP
        isRemoveFx = 0) := by
  constructor
  · intro hrun hfile
    have hev := run_bam_to_fastx_success_trace runCmd isfile readRecords tmp_out_pfx
      prog inp outf m hrun hfile
    rw [hev]
    constructor
    · exact List.getLast?_concat _
    · rw [List.countP_append, List.countP_append, List.countP_append,
        countRemove_fxLogEvents, List.countP_map]
      simp [isRemoveFx, Function.comp]
  · intro hne
    simp [run_bam_to_fastx, hne, isRemoveFx]

/-- Witness for the amended C8: a successful run removes the raw file last;
    a failing run removes nothing. -/
theorem claim_C8_amended_witness :
    (run_bam_to_fastx (fun _ => 0) (fun _ => true) (fun _ => [⟨"r1", "ACGT"⟩])
        "/tmp/t" "bam2fasta" "/in/x.xml" "/out/x.fasta" 0).2.getLast? =
      some (FxEvent.removeFile (tmpOutName "/tmp/t" "bam2fasta")) ∧
    (run_bam_to_fastx (fun _ => 7) (fun _ => true) (fun _ => [⟨"r1", "ACGT"⟩])
        "/tmp/t" "bam2fasta" "/in/x.xml" "/out/x.fasta" 0).2.countP isRemoveFx = 0 :=
  ⟨((claim_C8_amended_cleanup_success_only (fun _ => 0) (fun _ => true)
      (fun _ => [⟨"r1", "ACGT"⟩]) "/tmp/t" "bam2fasta" "/in/x.xml" "/out/x.fasta" 0).1
     (by rfl) (by rfl)).1,
   (claim_C8_amended_cleanup_success_only (fun _ => 7) (fun _ => true)
      (fun _ => [⟨"r1", "ACGT"⟩]) "/tmp/t" "bam2fasta" "/in/x.xml" "/out/x.fasta" 0).2
     (by decide)⟩
